import Mathlib

/-!
Shallow embedding of the MediaMTX VOD recorder service (src/recorder.py) and
verification of the frozen claims about it.

Conventions of the embedding:
* Python dicts with string keys become association lists `List (String × _)`;
  `dict.get(k)` with a `None` default becomes a total lookup returning a JSON
  `null` (or `Option` where `KeyError` matters).
* Python sets of filenames (`RecordingProcess.uploaded_files`) become
  `List String` with membership semantics; `set.add` is modelled by consing a
  name that is not yet a member (the code only adds under a membership guard).
* Wall-clock time (`time.time()`, `datetime.utcnow()`) is an explicit `Nat`
  parameter `now` in the environment; the session-id string minted from
  `utcnow().strftime` is an explicit environment field `mintSid`.
* The filesystem is a read-only environment function from a directory path to
  an optional file listing (`none` models a missing directory).
* Exceptions that a `try` block turns into "log and fall through" are modelled
  by the fall-through value itself.
-/

/-- A JSON value, as produced by `response.json()`.  Numbers are modelled as
integers (no claim concerns float payloads); objects are the association lists
obtained after parsing, so keys are unique and `find?` is dictionary lookup. -/
inductive JValue where
  | null : JValue
  | bool : Bool → JValue
  | num : Int → JValue
  | str : String → JValue
  | arr : List JValue → JValue
  | obj : List (String × JValue) → JValue

/-- Python truthiness of a JSON value (`if x:`): `None`, `False`, `0`, `""`,
`[]` and `{}` are falsy, everything else is truthy. -/
def truthy : JValue → Bool
  | .null => false
  | .bool b => b
  | .num n => n != 0
  | .str s => s != ""
  | .arr l => !l.isEmpty
  | .obj l => !l.isEmpty

/-- `d.get(k)` on a parsed JSON object: the value when the key is present,
JSON `null` (Python `None`) otherwise. -/
def jGet (fields : List (String × JValue)) (k : String) : JValue :=
  match fields.find? (fun p => p.1 == k) with
  | some p => p.2
  | none => .null

/-- `d[k]` on a parsed JSON object: `none` models the `KeyError` case. -/
def jGetOpt (fields : List (String × JValue)) (k : String) : Option JValue :=
  (fields.find? (fun p => p.1 == k)).map Prod.snd

/-- The liveness filter of `get_active_streams` (recorder.py line 283):
`item.get('ready') and item.get('source')`, i.e. Python truthiness of both
fields, not a `ready == True` / `source is not None` test. -/
def itemLive (fields : List (String × JValue)) : Bool :=
  truthy (jGet fields "ready") && truthy (jGet fields "source")

/-- The list comprehension of `get_active_streams` (recorder.py lines 280-284):
`[item['name'] for item in data['items'] if item.get('ready') and item.get('source')]`.
`none` models an exception escaping the comprehension (a non-dict item, or a
passing item without a `name` key); stream names are modelled as JSON strings
(the upstream API reports string names). -/
def extractStreams : List JValue → Option (List String)
  | [] => some []
  | .obj fields :: rest =>
      if itemLive fields then
        match jGetOpt fields "name" with
        | some (.str s) => (extractStreams rest).map (fun ns => s :: ns)
        | _ => none
      else extractStreams rest
  | _ :: _ => none

/-- Outcome of one poll of `GET /v3/paths/list`.  `failure` covers a transport
error or an unparseable/non-object body (both raise inside the `try` of
`get_active_streams`); `response status data` is a parsed JSON object body
with its HTTP status code. -/
inductive PollResponse where
  | failure : PollResponse
  | response : Nat → List (String × JValue) → PollResponse

/-- `MediaMTXMonitor.get_active_streams` (recorder.py lines 268-294).  Returns
the live stream names on a 200 response with a truthy `items` list; returns
`[]` on transport failure, non-200 status, missing/empty/non-list `items`, or
an exception while reading the items (all caught by the `except` clause). -/
def get_active_streams : PollResponse → List String
  | .failure => []
  | .response status data =>
      if status == 200 then
        match jGet data "items" with
        | .arr items =>
            if items.isEmpty then []
            else (extractStreams items).getD []
        | _ => []
      else []

/-- One file in a session's output directory, with its last-modification time
(`stat().st_mtime`, in seconds). -/
structure SegFile where
  name : String
  mtime : Nat
deriving DecidableEq, Repr

/-- `RecordingProcess` (recorder.py lines 60-70).  `alive` models
`process.poll() is None` (the child has not yet exited); registered sessions
always carry a process handle, so no separate `Option` is needed.
`uploaded_files` is the dispatched set. -/
structure Recording where
  stream_name : String
  session_id : String
  output_dir : String
  uploaded_files : List String
  is_active : Bool
  alive : Bool
deriving DecidableEq, Repr

/-- An entry of the upload queue (the dict built by `queue_upload`,
recorder.py lines 107-115, plus the `retry_count` key that `upload_file` adds;
a task without the key is a task with `retry_count = 0`).  `file_name` is the
basename of `file_path`. -/
structure UploadTask where
  file_path : String
  file_name : String
  stream_name : String
  session_id : String
  queued_at : Nat
  retry_count : Nat
deriving DecidableEq, Repr

/-- The mutable state of `MediaMTXMonitor`: the session table
`self.recordings` (a Python dict, modelled as an insertion-ordered association
list with unique keys) and the uploader's queue contents. -/
structure MonitorState where
  recordings : List (String × Recording)
  upload_queue : List UploadTask
deriving DecidableEq, Repr

/-- Dictionary lookup on the session table (`stream_name in self.recordings`,
`self.recordings[stream_name]`). -/
def tblGet : List (String × Recording) → String → Option Recording
  | [], _ => none
  | (k, v) :: t, n => if k = n then some v else tblGet t n

/-- `del self.recordings[stream_name]`. -/
def tblDel (t : List (String × Recording)) (n : String) : List (String × Recording) :=
  t.filter (fun p => p.1 ≠ n)

/-- The read-only environment of one pass over the code: configuration,
the wall clock, the session id the clock would mint, whether a freshly
spawned capture child survives the 2-second probe, and the filesystem. -/
structure Env where
  cap : Nat
  fmt : String
  mintSid : String
  spawnOk : String → Bool
  fs : String → Option (List SegFile)
  now : Nat

/-- Whether a filename matches the glob `segment_*.{fmt}` used by both the
detector and the stop-time tail (recorder.py lines 312 and 365): the name
starts with `segment_` and ends with `.{fmt}` (for names shorter than the two
patterns combined, prefix and suffix cannot both hold, so this coincides with
the glob). -/
def matchesSegment (fmt name : String) : Bool :=
  "segment_".data.isPrefixOf name.data && ("." ++ fmt).data.isSuffixOf name.data

/-- Lexicographic code-point order on character lists: the order Python's
`sorted` applies to the segment filenames. -/
def lexLe : List Char → List Char → Bool
  | [], _ => true
  | _ :: _, [] => false
  | a :: as, b :: bs =>
      if a.toNat < b.toNat then true
      else if b.toNat < a.toNat then false
      else lexLe as bs

/-- Python string comparison `a <= b` (code-point lexicographic). -/
def nameLe (a b : String) : Bool := lexLe a.data b.data

/-- Insert a file into a name-sorted list, keeping earlier files first among
equals (stability of Python `sorted`). -/
def insertSorted (f : SegFile) : List SegFile → List SegFile
  | [] => [f]
  | g :: gs => if nameLe f.name g.name then f :: g :: gs else g :: insertSorted f gs

/-- `sorted(...)` by filename, as applied to the glob result on line 312. -/
def sortByName : List SegFile → List SegFile
  | [] => []
  | f :: fs => insertSorted f (sortByName fs)

/-- The upload-task dict built by `S3Uploader.queue_upload`
(recorder.py lines 107-115); `queued_at` is the enqueue instant. -/
def mkTask (now : Nat) (dir name stream sid : String) : UploadTask :=
  { file_path := dir ++ "/" ++ name
    file_name := name
    stream_name := stream
    session_id := sid
    queued_at := now
    retry_count := 0 }

/-- The inner loop of `check_completed_segments` (recorder.py lines 318-328)
over the already-sorted, last-file-removed list: skip names already in the
dispatched set, and for a file idle for more than 10 seconds add its name to
the dispatched set and emit the upload task.  Returns the new dispatched set
and the emitted tasks in order. -/
def scanFiles (now : Nat) (dir stream sid : String) :
    List SegFile → List String → List String × List UploadTask
  | [], disp => (disp, [])
  | f :: fs, disp =>
      if f.name ∈ disp then scanFiles now dir stream sid fs disp
      else if 10 < now - f.mtime then
        let r := scanFiles now dir stream sid fs (f.name :: disp)
        (r.1, mkTask now dir f.name stream sid :: r.2)
      else scanFiles now dir stream sid fs disp

/-- The body of `check_completed_segments` for one session
(recorder.py lines 307-328): if the output directory is missing do nothing;
glob and sort the segment files; if at most one exists do nothing
(`len(segment_files) <= 1: continue`); otherwise scan all but the last. -/
def check_session_segments (env : Env) (rec : Recording) :
    Recording × List UploadTask :=
  match env.fs rec.output_dir with
  | none => (rec, [])
  | some listing =>
      let files := sortByName (listing.filter (fun f => matchesSegment env.fmt f.name))
      if files.length ≤ 1 then (rec, [])
      else
        let r := scanFiles env.now rec.output_dir rec.stream_name rec.session_id
                   files.dropLast rec.uploaded_files
        ({ rec with uploaded_files := r.1 }, r.2)

/-- `MediaMTXMonitor.check_completed_segments` (recorder.py lines 305-328):
one detector pass over every session in the table, appending the emitted
tasks to the upload queue. -/
def check_completed_segments (env : Env) (s : MonitorState) : MonitorState :=
  let r := s.recordings.foldl
    (fun (acc : List (String × Recording) × List UploadTask) p =>
      let q := check_session_segments env p.2
      (acc.1 ++ [(p.1, q.1)], acc.2 ++ q.2))
    ([], [])
  { recordings := r.1, upload_queue := s.upload_queue ++ r.2 }

/-- The session `FFmpegRecorder.start_recording` builds and
`start_stream_recording` registers: fresh session id from the clock, output
directory `/recordings/<stream>_<sid>`, empty dispatched set, live child. -/
def freshRecording (env : Env) (stream : String) : Recording :=
  { stream_name := stream
    session_id := env.mintSid
    output_dir := "/recordings/" ++ stream ++ "_" ++ env.mintSid
    uploaded_files := []
    is_active := true
    alive := true }

/-- `MediaMTXMonitor.start_stream_recording` (recorder.py lines 330-350):
return unchanged if the stream is already recorded, or the table is at the
concurrency cap, or the spawned child dies within the 2-second probe;
otherwise register the fresh session. -/
def start_stream_recording (env : Env) (s : MonitorState) (stream : String) :
    MonitorState :=
  if (tblGet s.recordings stream).isSome then s
  else if env.cap ≤ s.recordings.length then s
  else if env.spawnOk stream then
    { s with recordings := s.recordings ++ [(stream, freshRecording env stream)] }
  else s

/-- `MediaMTXMonitor.stop_stream_recording` (recorder.py lines 352-371):
return unchanged if the stream has no session; otherwise stop the child,
enqueue every remaining `segment_*` file of the output directory
(the session-termination tail), and delete the table entry. -/
def stop_stream_recording (env : Env) (s : MonitorState) (stream : String) :
    MonitorState :=
  match tblGet s.recordings stream with
  | none => s
  | some rec =>
      let tail :=
        match env.fs rec.output_dir with
        | none => []
        | some listing =>
            (listing.filter (fun f => matchesSegment env.fmt f.name)).map
              (fun f => mkTask env.now rec.output_dir f.name stream rec.session_id)
      { recordings := tblDel s.recordings stream
        upload_queue := s.upload_queue ++ tail }

/-- The loop body of `MediaMTXMonitor.monitor_process_health` (recorder.py
lines 375-379), iterating over the `list(self.recordings.items())` snapshot
while the state evolves: for each session whose child has exited, delete the
entry and immediately call `start_stream_recording` for the same stream. -/
def healthSweep (env : Env) : List (String × Recording) → MonitorState → MonitorState
  | [], s => s
  | p :: rest, s =>
      if p.2.alive then healthSweep env rest s
      else healthSweep env rest
        (start_stream_recording env { s with recordings := tblDel s.recordings p.1 } p.1)

/-- `MediaMTXMonitor.monitor_process_health` (recorder.py lines 373-379):
run the sweep over a snapshot of the current table. -/
def monitor_process_health (env : Env) (s : MonitorState) : MonitorState :=
  healthSweep env s.recordings s

/-- The start phase of one `run` tick (recorder.py lines 390-393): for each
polled name not currently in the table, attempt a start. -/
def startLoop (env : Env) : List String → MonitorState → MonitorState
  | [], s => s
  | n :: rest, s =>
      if (tblGet s.recordings n).isSome then startLoop env rest s
      else startLoop env rest (start_stream_recording env s n)

/-- The stop phase of one `run` tick (recorder.py lines 395-399): for each
key of a snapshot of the table that is absent from the polled names, stop. -/
def stopLoop (env : Env) (active : List String) : List String → MonitorState → MonitorState
  | [], s => s
  | n :: rest, s =>
      if active.contains n then stopLoop env active rest s
      else stopLoop env active rest (stop_stream_recording env s n)

/-- One iteration of `MediaMTXMonitor.run`'s loop body (recorder.py lines
385-402): poll, start new streams, stop streams absent from the poll result
(in that order, over a key snapshot taken after the starts), then the
process-health sweep. -/
def runTick (env : Env) (resp : PollResponse) (s : MonitorState) : MonitorState :=
  monitor_process_health env
    (stopLoop env (get_active_streams resp)
      ((startLoop env (get_active_streams resp) s).recordings.map Prod.fst)
      (startLoop env (get_active_streams resp) s))

/-- Modelled from the spec: the tick ordering the spec prescribes in section
4.5 ("Within a tick, process starts after stops"), i.e. the same phases as
`runTick` but with the stops of absent sessions performed before the starts
of newly reported streams.  Stated only for comparison with `runTick`. -/
def runTickStopsFirst (env : Env) (resp : PollResponse) (s : MonitorState) :
    MonitorState :=
  monitor_process_health env
    (startLoop env (get_active_streams resp)
      (stopLoop env (get_active_streams resp) (s.recordings.map Prod.fst) s))

/-- Outcome of one attempt of `S3Uploader.upload_file` on a task: the local
file had vanished (early return), the put succeeded (local delete attempted),
or an exception was raised in the `try` body (transport failure etc.). -/
inductive UploadOutcome where
  | fileMissing : UploadOutcome
  | putSuccess : UploadOutcome
  | putFailure : UploadOutcome
deriving DecidableEq

/-- The queue effect of `S3Uploader.upload_file` (recorder.py lines 117-167):
the list of tasks put back on the upload queue.  A vanished file and a
successful put re-enqueue nothing; a failure re-enqueues the task with the
retry count bumped when `task.get('retry_count', 0) < 3`, and silently drops
it otherwise.  The object key and metadata construction and the local delete
have no queue effect and are not needed by any claim. -/
def upload_file (task : UploadTask) (out : UploadOutcome) : List UploadTask :=
  match out with
  | .fileMissing => []
  | .putSuccess => []
  | .putFailure =>
      if task.retry_count < 3 then
        [{ task with retry_count := task.retry_count + 1 }]
      else []

/-- Number of re-enqueues a task suffers under persistently failing puts:
follow the task through `upload_file` with `putFailure` until it is dropped
(or the fuel runs out). -/
def retryChainLength : Nat → UploadTask → Nat
  | 0, _ => 0
  | fuel + 1, t =>
      match upload_file t .putFailure with
      | [] => 0
      | t' :: _ => 1 + retryChainLength fuel t'

/-- The fields of `boto3.s3.transfer.TransferConfig` that the service sets. -/
structure TransferConfig where
  multipart_threshold : Nat
  max_concurrency : Nat
  multipart_chunksize : Nat
  use_threads : Bool
deriving DecidableEq, Repr

/-- `S3Uploader.__init__`'s transfer configuration (recorder.py lines 98-103),
values in bytes exactly as written in the source. -/
def transfer_config : TransferConfig :=
  { multipart_threshold := 1024 * 25
    max_concurrency := 10
    multipart_chunksize := 1024 * 25
    use_threads := true }

/-- Extensional characterization of Python truthiness, used to state what the
liveness filter actually tests: the value is none of the six falsy values. -/
def isTruthyP (v : JValue) : Prop :=
  v ≠ .null ∧ v ≠ .bool false ∧ v ≠ .num 0 ∧ v ≠ .str "" ∧
    v ≠ .arr [] ∧ v ≠ .obj []

/-- Names (dispatched-set keys) of a task list. -/
def taskNames (ts : List UploadTask) : List String :=
  ts.map (fun t => t.file_name)

/-- A sequence of detector scans of one session, under a (possibly different)
environment per 30-second tick; returns the final session and all tasks
enqueued across the ticks, in order. -/
def detectorTicks : List Env → Recording → Recording × List UploadTask
  | [], rec => (rec, [])
  | e :: es, rec =>
      let r := check_session_segments e rec
      let r2 := detectorTicks es r.1
      (r2.1, r.2 ++ r2.2)

/-- A generic environment for concrete instances: cap 10, `mp4` output,
spawns always survive the probe, every directory exists and is empty. -/
def env0 : Env :=
  { cap := 10
    fmt := "mp4"
    mintSid := "20240101_000000"
    spawnOk := fun _ => true
    fs := fun _ => some []
    now := 0 }

/-- A live session for stream `cam1`, as registered by a successful start. -/
def recCam1 : Recording :=
  { stream_name := "cam1"
    session_id := "20240101_000000"
    output_dir := "/recordings/cam1_20240101_000000"
    uploaded_files := []
    is_active := true
    alive := true }

/-- The same `cam1` session after its capture child has exited
(`process.poll() is not None`). -/
def recCam1Dead : Recording :=
  { recCam1 with alive := false }

/-- A monitor state with the single live session `cam1` and an empty queue. -/
def sOneLive : MonitorState :=
  { recordings := [("cam1", recCam1)], upload_queue := [] }

/-- A poll item whose `ready` is `true` and whose `source` is the empty JSON
object: non-null, but falsy under Python truthiness. -/
def itemEmptySource : List (String × JValue) :=
  [("name", .str "cam1"), ("ready", .bool true), ("source", .obj [])]

/-- A poll item for stream `new`, ready with a non-empty source object. -/
def itemNew : List (String × JValue) :=
  [("name", .str "new"), ("ready", .bool true),
   ("source", .obj [("type", .str "rtspSession")])]

/-- A 200 response reporting only the stream `new`. -/
def respNew : PollResponse :=
  .response 200 [("items", .arr [.obj itemNew])]

/-- Environment with concurrency cap 1, for the tick-ordering instance. -/
def envCap1 : Env :=
  { env0 with cap := 1, mintSid := "20240101_000110", now := 70 }

/-- A state with the single live session `old`, at the cap-1 limit. -/
def sOld : MonitorState :=
  { recordings :=
      [("old",
        { stream_name := "old"
          session_id := "20240101_000000"
          output_dir := "/recordings/old_20240101_000000"
          uploaded_files := []
          is_active := true
          alive := true })]
    upload_queue := [] }

/-- Environment whose clock would mint the later session id
`20240101_000105`, for the crash-restart instances. -/
def envRestart : Env :=
  { env0 with mintSid := "20240101_000105", now := 65 }

/-- A segment file left behind in `cam1`'s directory after the child died. -/
def segLeft : SegFile :=
  { name := "segment_003.mp4", mtime := 0 }

/-- Environment in which `cam1`'s output directory still holds `segLeft`. -/
def envLeftover : Env :=
  { envRestart with
    fs := fun d =>
      if d = "/recordings/cam1_20240101_000000" then some [segLeft] else some [] }

/-- The two on-disk segment files of the two-file detector instance. -/
def fSeg000 : SegFile := { name := "segment_000.mp4", mtime := 0 }

/-- Second (newer, still-growing) segment file of the two-file instance. -/
def fSeg001 : SegFile := { name := "segment_001.mp4", mtime := 50 }

/-- Environment in which `cam1`'s directory holds exactly `fSeg000` and
`fSeg001` (listed unsorted) and the clock reads 100. -/
def envTwoFiles : Env :=
  { env0 with
    now := 100
    fs := fun d =>
      if d = "/recordings/cam1_20240101_000000" then some [fSeg001, fSeg000]
      else some [] }

/-- An upload task as the detector first enqueues it (no retries yet). -/
def task0 : UploadTask :=
  mkTask 100 "/recordings/cam1_20240101_000000" "segment_000.mp4" "cam1"
    "20240101_000000"

theorem truthy_eq_true_iff (v : JValue) : truthy v = true ↔ isTruthyP v := by
  cases v <;> simp [truthy, isTruthyP]

theorem length_insertSorted (f : SegFile) (l : List SegFile) :
    (insertSorted f l).length = l.length + 1 := by
  induction l with
  | nil => rfl
  | cons g gs ih =>
      simp only [insertSorted]
      split <;> simp [ih]

theorem length_sortByName (l : List SegFile) : (sortByName l).length = l.length := by
  induction l with
  | nil => rfl
  | cons f fs ih => simp [sortByName, length_insertSorted, ih]

theorem start_upload_queue (env : Env) (s : MonitorState) (n : String) :
    (start_stream_recording env s n).upload_queue = s.upload_queue := by
  unfold start_stream_recording
  split
  · rfl
  split
  · rfl
  split <;> rfl

theorem start_eq_of_cap (env : Env) (s : MonitorState) (n : String)
    (h : env.cap ≤ s.recordings.length) : start_stream_recording env s n = s := by
  unfold start_stream_recording
  split
  · rfl
  · rfl

theorem startLoop_eq_of_cap (env : Env) (active : List String) (s : MonitorState)
    (h : env.cap ≤ s.recordings.length) : startLoop env active s = s := by
  induction active with
  | nil => rfl
  | cons n rest ih =>
      simp only [startLoop]
      rw [start_eq_of_cap env s n h]
      split <;> exact ih

theorem tblGet_filter_none (t : List (String × Recording))
    (q : String × Recording → Bool) (m : String) (h : tblGet t m = none) :
    tblGet (t.filter q) m = none := by
  induction t with
  | nil => rfl
  | cons p rest ih =>
      obtain ⟨k, v⟩ := p
      by_cases hk : k = m
      · rw [tblGet, if_pos hk] at h
        simp at h
      · rw [tblGet, if_neg hk] at h
        rw [List.filter_cons]
        split
        · rw [tblGet, if_neg hk]
          exact ih h
        · exact ih h

theorem stop_recordings_subset (env : Env) (s : MonitorState) (n : String)
    (p : String × Recording) (h : p ∈ (stop_stream_recording env s n).recordings) :
    p ∈ s.recordings := by
  unfold stop_stream_recording at h
  split at h
  · exact h
  · exact List.mem_of_mem_filter h

theorem stop_tblGet_none (env : Env) (s : MonitorState) (n m : String)
    (h : tblGet s.recordings m = none) :
    tblGet (stop_stream_recording env s n).recordings m = none := by
  unfold stop_stream_recording
  split
  · exact h
  · exact tblGet_filter_none _ _ _ h

theorem stopLoop_recordings_subset (env : Env) (active keys : List String)
    (s : MonitorState) (p : String × Recording)
    (h : p ∈ (stopLoop env active keys s).recordings) : p ∈ s.recordings := by
  induction keys generalizing s with
  | nil => exact h
  | cons n rest ih =>
      simp only [stopLoop] at h
      split at h
      · exact ih s h
      · exact stop_recordings_subset env s n p (ih _ h)

theorem stopLoop_tblGet_none (env : Env) (active keys : List String)
    (s : MonitorState) (m : String) (h : tblGet s.recordings m = none) :
    tblGet (stopLoop env active keys s).recordings m = none := by
  induction keys generalizing s with
  | nil => exact h
  | cons n rest ih =>
      simp only [stopLoop]
      split
      · exact ih s h
      · exact ih _ (stop_tblGet_none env s n m h)

theorem healthSweep_eq_of_alive (env : Env) (l : List (String × Recording))
    (s : MonitorState) (h : ∀ p ∈ l, p.2.alive = true) : healthSweep env l s = s := by
  induction l with
  | nil => rfl
  | cons p rest ih =>
      simp only [healthSweep]
      rw [if_pos (h p (List.mem_cons_self p rest))]
      exact ih fun q hq => h q (List.mem_cons_of_mem p hq)

theorem healthSweep_queue (env : Env) (l : List (String × Recording))
    (s : MonitorState) : (healthSweep env l s).upload_queue = s.upload_queue := by
  induction l generalizing s with
  | nil => rfl
  | cons p rest ih =>
      simp only [healthSweep]
      split
      · exact ih s
      · exact (ih _).trans (start_upload_queue env _ p.1)

theorem health_single_dead (env : Env) (n : String) (rec : Recording)
    (q : List UploadTask) (hdead : rec.alive = false) (hspawn : env.spawnOk n = true)
    (hcap : 0 < env.cap) :
    monitor_process_health env { recordings := [(n, rec)], upload_queue := q } =
      { recordings := [(n, freshRecording env n)], upload_queue := q } := by
  have hle : ¬ env.cap ≤ ([] : List (String × Recording)).length := by
    simp only [List.length_nil, Nat.le_zero]
    omega
  simp [monitor_process_health, healthSweep, hdead, tblDel, start_stream_recording,
    tblGet, hspawn, hle]
  omega

/-- Claim C1 (code bug): on a failed poll — transport error, non-200
response, or a 200 body without usable `items` — `get_active_streams`
returns the empty list, and the reconciliation tick then treats every active
session as "no longer active" and stops it: starting from the single live
session `cam1`, the tick empties the session table.  The claim (and spec
sections 4.5 and 9) requires that a failed poll not mutate the session
table. -/
theorem C1_poll_failure_stops_sessions :
    get_active_streams .failure = [] ∧
    get_active_streams (.response 500 [("items", .arr [.obj itemNew])]) = [] ∧
    get_active_streams (.response 200 [("error", .str "oops")]) = [] ∧
    sOneLive.recordings ≠ [] ∧
    (runTick env0 .failure sOneLive).recordings = [] ∧
    (runTick env0 (.response 500 [("items", .arr [.obj itemNew])]) sOneLive).recordings = [] ∧
    (runTick env0 (.response 200 [("error", .str "oops")]) sOneLive).recordings = [] := by
  refine ⟨rfl, rfl, rfl, ?_, rfl, rfl, rfl⟩
  simp [sOneLive]

/-- Claim C9 (code bug): the transfer configuration sets the multipart
threshold and part size to `1024 * 25` = 25600 bytes = 25 KiB, a factor of
1024 below the ≈25 MiB that the claim — and the source's own `# 25MB`
comment on those lines — state. -/
theorem C9_transfer_config_is_25KiB :
    transfer_config.multipart_threshold = 25600 ∧
    transfer_config.multipart_chunksize = 25600 ∧
    transfer_config.multipart_threshold * 1024 = 25 * 1024 * 1024 := by
  refine ⟨rfl, rfl, rfl⟩

/-- Claim C10: calling the stop operation for a stream with no session-table
entry is a no-op — the whole monitor state (session table, every session's
dispatched set, and the upload queue) is returned unchanged. -/
theorem C10_stop_missing_noop (env : Env) (s : MonitorState) (stream : String)
    (h : tblGet s.recordings stream = none) :
    stop_stream_recording env s stream = s := by
  unfold stop_stream_recording
  rw [h]

/-- Witness to `C10_stop_missing_noop` at a concrete state. -/
theorem C10_stop_missing_noop_witness :
    stop_stream_recording env0 { recordings := [("cam1", recCam1)], upload_queue := [] }
      "cam9" = { recordings := [("cam1", recCam1)], upload_queue := [] } :=
  C10_stop_missing_noop env0 _ "cam9" rfl

/-- Counterexample to claim C6: with the single dead session `cam1`, the
process-health sweep alone — before any further reconciliation tick —
already installs a replacement session for `cam1` with a newly minted
session id.  The restart is inline within the sweep, not deferred to the
next tick. -/
theorem C6_counterexample :
    recCam1Dead.alive = false ∧
    (monitor_process_health envRestart
        { recordings := [("cam1", recCam1Dead)], upload_queue := [] }).recordings =
      [("cam1", freshRecording envRestart "cam1")] ∧
    (freshRecording envRestart "cam1").session_id ≠ recCam1Dead.session_id := by
  refine ⟨rfl, rfl, ?_⟩
  decide

/-- Claim C6 (amended): when the health sweep finds the session's child
exited, it removes the entry and immediately restarts the stream inline
within the sweep itself — when the spawn probe succeeds and the cap allows,
the replacement session (carrying the session id minted at restart time) is
already registered when the sweep returns. -/
theorem C6_inline_restart (env : Env) (n : String) (rec : Recording)
    (q : List UploadTask) (hdead : rec.alive = false)
    (hspawn : env.spawnOk n = true) (hcap : 0 < env.cap) :
    (monitor_process_health env
        { recordings := [(n, rec)], upload_queue := q }).recordings =
      [(n, freshRecording env n)] := by
  rw [health_single_dead env n rec q hdead hspawn hcap]

/-- Witness to `C6_inline_restart` at the concrete dead `cam1` session. -/
theorem C6_inline_restart_witness :
    (monitor_process_health envRestart
        { recordings := [("cam1", recCam1Dead)], upload_queue := [] }).recordings =
      [("cam1", freshRecording envRestart "cam1")] :=
  C6_inline_restart envRestart "cam1" recCam1Dead [] rfl rfl (by decide)

/-- Claim C7 (amended): when a session ends because its capture child died,
nothing is enqueued for it — the health sweep leaves the upload queue of ANY
state untouched, so the dead session's remaining files are never enqueued
(no session-termination tail runs on the crash path, in contrast to the stop
path) — and the inline replacement session carries the session id minted at
restart time rather than the old one. -/
theorem C7_no_tail_on_crash :
    (∀ (env : Env) (s : MonitorState),
        (monitor_process_health env s).upload_queue = s.upload_queue) ∧
    (∀ (env : Env) (n : String) (rec : Recording) (q : List UploadTask),
        rec.alive = false → env.spawnOk n = true → 0 < env.cap →
        tblGet (monitor_process_health env
            { recordings := [(n, rec)], upload_queue := q }).recordings n =
          some (freshRecording env n)) := by
  constructor
  · intro env s
    exact healthSweep_queue env s.recordings s
  · intro env n rec q hdead hspawn hcap
    rw [health_single_dead env n rec q hdead hspawn hcap]
    simp [tblGet]

/-- Witness to `C7_no_tail_on_crash`: a concrete dead session with a
leftover segment file on disk; the sweep leaves the queue empty, and the
replacement carries the freshly minted session id. -/
theorem C7_no_tail_on_crash_witness :
    (monitor_process_health envLeftover
        { recordings := [("cam1", recCam1Dead)], upload_queue := [] }).upload_queue = [] ∧
    tblGet (monitor_process_health envLeftover
        { recordings := [("cam1", recCam1Dead)], upload_queue := [] }).recordings
      "cam1" = some (freshRecording envLeftover "cam1") :=
  ⟨C7_no_tail_on_crash.1 envLeftover _,
   C7_no_tail_on_crash.2 envLeftover "cam1" recCam1Dead [] rfl rfl (by decide)⟩

/-- Counterexample to claim C7: the child of `cam1` died leaving
`segment_003.mp4` in its output directory, yet after the health sweep the
upload queue is still empty — the remaining file is never enqueued under the
old session id. -/
theorem C7_counterexample :
    envLeftover.fs recCam1Dead.output_dir = some [segLeft] ∧
    recCam1Dead.alive = false ∧
    (monitor_process_health envLeftover
        { recordings := [("cam1", recCam1Dead)], upload_queue := [] }).upload_queue
      = [] := by
  refine ⟨rfl, rfl, rfl⟩

/-- Counterexample to claim C5: cap 1, the live session `old` absent from
the poll, the new stream `new` reported live and spawnable.  The real tick
leaves `new` unstarted — the start phase ran first and was blocked by the cap
still counting `old` — while the spec-ordered tick (stops before starts,
`runTickStopsFirst`) does start it.  So within a tick the stops are NOT
performed before the starts. -/
theorem C5_counterexample :
    get_active_streams respNew = ["new"] ∧
    envCap1.spawnOk "new" = true ∧
    tblGet (runTick envCap1 respNew sOld).recordings "new" = none ∧
    (tblGet (runTickStopsFirst envCap1 respNew sOld).recordings "new").isSome = true := by
  refine ⟨rfl, rfl, rfl, rfl⟩

/-- Claim C5 (amended): within a tick the code performs the starts of newly
reported streams BEFORE the stops of absent sessions, so a newly reported
stream is checked against the concurrency cap while the sessions about to be
stopped still occupy it: whenever the table is at or above the cap and no
child has died, a reported-but-unrecorded stream is still absent from the
table after the whole tick. -/
theorem C5_starts_blocked_by_cap (env : Env) (resp : PollResponse)
    (s : MonitorState) (n : String)
    (hcap : env.cap ≤ s.recordings.length)
    (hnew : tblGet s.recordings n = none)
    (_hactive : n ∈ get_active_streams resp)
    (halive : ∀ p ∈ s.recordings, p.2.alive = true) :
    tblGet (runTick env resp s).recordings n = none := by
  unfold runTick
  rw [startLoop_eq_of_cap env _ s hcap]
  have h2 := stopLoop_tblGet_none env (get_active_streams resp)
      (s.recordings.map Prod.fst) s n hnew
  have halive2 : ∀ p ∈ (stopLoop env (get_active_streams resp)
      (s.recordings.map Prod.fst) s).recordings, p.2.alive = true :=
    fun p hp => halive p (stopLoop_recordings_subset env _ _ s p hp)
  rw [monitor_process_health, healthSweep_eq_of_alive _ _ _ halive2]
  exact h2

/-- Witness to `C5_starts_blocked_by_cap` at the cap-1 instance. -/
theorem C5_starts_blocked_by_cap_witness :
    tblGet (runTick envCap1 respNew sOld).recordings "new" = none :=
  C5_starts_blocked_by_cap envCap1 respNew sOld "new" (by decide) rfl
    (by decide) (by decide)

/-- A failing put on a task with fewer than 3 recorded retries re-enqueues
it once, with the count bumped (recorder.py lines 164-167). -/
theorem upload_file_requeue (t : UploadTask) (h : t.retry_count < 3) :
    upload_file t .putFailure = [{ t with retry_count := t.retry_count + 1 }] := by
  simp [upload_file, h]

/-- A failing put on a task whose count has reached 3 drops it silently. -/
theorem upload_file_drop (t : UploadTask) (h : 3 ≤ t.retry_count) :
    upload_file t .putFailure = [] := by
  simp [upload_file, Nat.not_lt.mpr h]

/-- Under persistent failure the number of re-enqueues is bounded by
`3 - retry_count`. -/
theorem retryChainLength_le (fuel : Nat) (t : UploadTask) :
    retryChainLength fuel t ≤ 3 - t.retry_count := by
  induction fuel generalizing t with
  | zero =>
      rw [retryChainLength]
      omega
  | succ m ih =>
      by_cases h : t.retry_count < 3
      · rw [retryChainLength, upload_file_requeue t h]
        show 1 + retryChainLength m { t with retry_count := t.retry_count + 1 } ≤
          3 - t.retry_count
        have h2 : retryChainLength m { t with retry_count := t.retry_count + 1 } ≤
            3 - (t.retry_count + 1) := ih _
        omega
      · rw [retryChainLength, upload_file_drop t (Nat.not_lt.mp h)]
        show (0 : Nat) ≤ 3 - t.retry_count
        omega

/-- With enough fuel, persistent failure re-enqueues exactly `3 - retry_count`
times before the drop. -/
theorem retryChainLength_eq (fuel : Nat) (t : UploadTask)
    (hle : 3 - t.retry_count ≤ fuel) :
    retryChainLength fuel t = 3 - t.retry_count := by
  induction fuel generalizing t with
  | zero =>
      rw [retryChainLength]
      omega
  | succ m ih =>
      by_cases h : t.retry_count < 3
      · rw [retryChainLength, upload_file_requeue t h]
        show 1 + retryChainLength m { t with retry_count := t.retry_count + 1 } =
          3 - t.retry_count
        have h2 : retryChainLength m { t with retry_count := t.retry_count + 1 } =
            3 - (t.retry_count + 1) :=
          ih _ (show 3 - (t.retry_count + 1) ≤ m by omega)
        omega
      · rw [retryChainLength, upload_file_drop t (Nat.not_lt.mp h)]
        show (0 : Nat) = 3 - t.retry_count
        omega

/-- Claim C8: on a failing put, a task with retry count below 3 is
re-enqueued once with the count incremented; a task whose count has reached
3 is dropped; consequently any task is re-enqueued at most `3 - count` times
under persistent failure, and a detector-created task (count 0) exactly 3
times.  `upload_file` is total on every outcome — no upload failure
propagates out of it. -/
theorem C8_retry_policy :
    (∀ t : UploadTask, t.retry_count < 3 →
        upload_file t .putFailure = [{ t with retry_count := t.retry_count + 1 }]) ∧
    (∀ t : UploadTask, 3 ≤ t.retry_count → upload_file t .putFailure = []) ∧
    (∀ (fuel : Nat) (t : UploadTask), retryChainLength fuel t ≤ 3 - t.retry_count) ∧
    (∀ (fuel : Nat) (t : UploadTask), t.retry_count = 0 → 3 ≤ fuel →
        retryChainLength fuel t = 3) := by
  refine ⟨upload_file_requeue, upload_file_drop, retryChainLength_le, ?_⟩
  intro fuel t h0 hf
  rw [retryChainLength_eq fuel t (by omega), h0]

/-- Witness to `C8_retry_policy`: a fresh task is re-enqueued with count 1,
a count-3 task is dropped, and with fuel 5 the fresh task is re-enqueued
exactly 3 times. -/
theorem C8_retry_policy_witness :
    upload_file task0 .putFailure = [{ task0 with retry_count := 1 }] ∧
    upload_file { task0 with retry_count := 3 } .putFailure = [] ∧
    retryChainLength 5 task0 = 3 :=
  ⟨C8_retry_policy.1 task0 (by decide), C8_retry_policy.2.1 _ (by decide),
   C8_retry_policy.2.2.2 5 task0 rfl (by decide)⟩

/-- Claim C3 (amended): the detector's hold-back guard is
`len(segment_files) <= 1` — when at most ONE file matches the segment
pattern, the scan enqueues nothing and returns the session (hence its
dispatched set) unchanged.  With exactly two matching files the first one
can already be enqueued (see the counterexample). -/
theorem C3_holdback_at_most_one (env : Env) (rec : Recording)
    (listing : List SegFile) (hfs : env.fs rec.output_dir = some listing)
    (hlen : (listing.filter (fun f => matchesSegment env.fmt f.name)).length ≤ 1) :
    check_session_segments env rec = (rec, []) := by
  unfold check_session_segments
  rw [hfs]
  show (if (sortByName (listing.filter (fun f => matchesSegment env.fmt f.name))).length ≤ 1
        then (rec, ([] : List UploadTask)) else _) = (rec, [])
  rw [length_sortByName, if_pos hlen]

/-- Witness to `C3_holdback_at_most_one`: a single on-disk segment file —
nothing is enqueued and the session is unchanged. -/
theorem C3_holdback_at_most_one_witness :
    check_session_segments { env0 with fs := fun _ => some [fSeg000], now := 100 }
      recCam1 = (recCam1, []) :=
  C3_holdback_at_most_one _ recCam1 [fSeg000] rfl
    ((List.length_filter_le _ _).trans (by decide))

/-- Counterexample to claim C3: the output directory holds exactly TWO files
matching the segment pattern, yet the scan enqueues the older one and adds
its name to the dispatched set — "two or fewer files exist → do nothing"
does not hold of the code, whose guard is `<= 1`. -/
theorem C3_counterexample :
    envTwoFiles.fs recCam1.output_dir = some [fSeg001, fSeg000] ∧
    ((envTwoFiles.fs recCam1.output_dir).getD []).length = 2 ∧
    check_session_segments envTwoFiles recCam1 =
      ({ recCam1 with uploaded_files := ["segment_000.mp4"] }, [task0]) := by
  refine ⟨rfl, rfl, rfl⟩

/-- Membership in a successfully evaluated poll comprehension: a name is
returned exactly when some object item of the list carries it and passes the
truthiness liveness filter. -/
theorem extractStreams_mem (l : List JValue) (ns : List String)
    (h : extractStreams l = some ns) (s : String) :
    s ∈ ns ↔ ∃ fields, JValue.obj fields ∈ l ∧
      jGetOpt fields "name" = some (.str s) ∧ itemLive fields = true := by
  induction l generalizing ns with
  | nil =>
      rw [extractStreams] at h
      obtain rfl : ns = [] := by
        cases h
        rfl
      simp
  | cons v rest ih =>
      cases v with
      | obj fields =>
          rw [extractStreams] at h
          split at h
          case isTrue hl =>
            split at h
            case h_1 nm hn =>
              rcases he : extractStreams rest with _ | ns'
              · rw [he] at h
                simp at h
              · rw [he] at h
                simp only [Option.map_some', Option.some.injEq] at h
                subst h
                rw [List.mem_cons]
                constructor
                · rintro (rfl | hs)
                  · exact ⟨fields, List.mem_cons_self _ _, hn, hl⟩
                  · obtain ⟨f', hm, hname, hlive⟩ := (ih ns' he).mp hs
                    exact ⟨f', List.mem_cons_of_mem _ hm, hname, hlive⟩
                · rintro ⟨f', hm, hname, hlive⟩
                  rcases List.mem_cons.mp hm with heq | hmr
                  · obtain rfl : f' = fields := by
                      cases heq
                      rfl
                    rw [hn] at hname
                    obtain rfl : s = nm := by
                      cases hname
                      rfl
                    exact Or.inl rfl
                  · exact Or.inr ((ih ns' he).mpr ⟨f', hmr, hname, hlive⟩)
            case h_2 hne =>
              exact Option.noConfusion h
          case isFalse hl =>
            rw [ih ns h]
            constructor
            · rintro ⟨f', hm, hname, hlive⟩
              exact ⟨f', List.mem_cons_of_mem _ hm, hname, hlive⟩
            · rintro ⟨f', hm, hname, hlive⟩
              rcases List.mem_cons.mp hm with heq | hmr
              · obtain rfl : f' = fields := by
                  cases heq
                  rfl
                exact absurd hlive hl
              · exact ⟨f', hmr, hname, hlive⟩
      | null =>
          simp only [extractStreams] at h
          cases h
      | bool b =>
          simp only [extractStreams] at h
          cases h
      | num n =>
          simp only [extractStreams] at h
          cases h
      | str t =>
          simp only [extractStreams] at h
          cases h
      | arr a =>
          simp only [extractStreams] at h
          cases h

/-- Claim C2 (amended): a poll item is classified live iff BOTH its `ready`
and its `source` field are truthy in the Python sense (not one of null,
false, 0, empty string, empty list, empty object) — not merely `ready` true
and `source` non-null; and in a successfully read poll body a stream name is
returned exactly when one of its object items passes this filter.  In
particular an item with `ready = true` and `source = {}` (non-null but
falsy) is NOT live. -/
theorem C2_liveness_truthiness :
    (∀ fields, itemLive fields = true ↔
        (isTruthyP (jGet fields "ready") ∧ isTruthyP (jGet fields "source"))) ∧
    (∀ (l : List JValue) (ns : List String), extractStreams l = some ns →
        ∀ s : String, s ∈ ns ↔ ∃ fields, JValue.obj fields ∈ l ∧
          jGetOpt fields "name" = some (.str s) ∧ itemLive fields = true) := by
  constructor
  · intro fields
    rw [itemLive, Bool.and_eq_true, truthy_eq_true_iff, truthy_eq_true_iff]
  · intro l ns h s
    exact extractStreams_mem l ns h s

/-- Witness to `C2_liveness_truthiness` on a concrete two-item body: only
`new` passes the filter (the empty-source item does not). -/
theorem C2_liveness_truthiness_witness :
    ("new" ∈ ["new"] ↔ ∃ fields,
        JValue.obj fields ∈ [JValue.obj itemNew, JValue.obj itemEmptySource] ∧
        jGetOpt fields "name" = some (.str "new") ∧ itemLive fields = true) ∧
    (itemLive itemNew = true ↔
        (isTruthyP (jGet itemNew "ready") ∧ isTruthyP (jGet itemNew "source"))) :=
  ⟨C2_liveness_truthiness.2 [JValue.obj itemNew, JValue.obj itemEmptySource]
      ["new"] rfl "new",
   C2_liveness_truthiness.1 itemNew⟩

/-- Counterexample to claim C2: an item with `ready = true` and a non-null
`source` (the empty object) is NOT classified live — the code tests Python
truthiness, and a whole poll consisting of that item yields no live
streams. -/
theorem C2_counterexample :
    jGet itemEmptySource "ready" = .bool true ∧
    jGet itemEmptySource "source" = .obj [] ∧
    JValue.obj [] ≠ JValue.null ∧
    itemLive itemEmptySource = false ∧
    get_active_streams (.response 200 [("items", .arr [.obj itemEmptySource])]) = [] := by
  refine ⟨rfl, rfl, ?_, rfl, rfl⟩
  exact fun h => JValue.noConfusion h

/-- Core invariants of one detector pass over a file list: the dispatched
set only grows; every emitted task's filename is in the resulting dispatched
set and was not in the starting one; and the emitted filenames are pairwise
distinct. -/
theorem scanFiles_spec (now : Nat) (dir stream sid : String) (files : List SegFile)
    (disp : List String) :
    (∀ x ∈ disp, x ∈ (scanFiles now dir stream sid files disp).1) ∧
    (∀ nm ∈ taskNames (scanFiles now dir stream sid files disp).2,
        nm ∈ (scanFiles now dir stream sid files disp).1 ∧ nm ∉ disp) ∧
    (taskNames (scanFiles now dir stream sid files disp).2).Nodup := by
  induction files generalizing disp with
  | nil =>
      refine ⟨fun x hx => hx, ?_, ?_⟩
      · intro nm hnm
        simp [scanFiles, taskNames] at hnm
      · simp [scanFiles, taskNames]
  | cons f rest ih =>
      by_cases hmem : f.name ∈ disp
      · rw [scanFiles, if_pos hmem]
        exact ih disp
      · by_cases hage : 10 < now - f.mtime
        · rw [scanFiles, if_neg hmem, if_pos hage]
          obtain ⟨ih1, ih2, ih3⟩ := ih (f.name :: disp)
          refine ⟨?_, ?_, ?_⟩
          · intro x hx
            exact ih1 x (List.mem_cons_of_mem _ hx)
          · intro nm hnm
            rw [show taskNames (mkTask now dir f.name stream sid ::
                  (scanFiles now dir stream sid rest (f.name :: disp)).2) =
                f.name :: taskNames (scanFiles now dir stream sid rest
                  (f.name :: disp)).2 from rfl, List.mem_cons] at hnm
            rcases hnm with rfl | hnm
            · exact ⟨ih1 f.name (List.mem_cons_self _ _), hmem⟩
            · obtain ⟨h1, h2⟩ := ih2 nm hnm
              exact ⟨h1, fun hx => h2 (List.mem_cons_of_mem _ hx)⟩
          · rw [show taskNames (mkTask now dir f.name stream sid ::
                  (scanFiles now dir stream sid rest (f.name :: disp)).2) =
                f.name :: taskNames (scanFiles now dir stream sid rest
                  (f.name :: disp)).2 from rfl, List.nodup_cons]
            refine ⟨?_, ih3⟩
            intro hx
            exact (ih2 f.name hx).2 (List.mem_cons_self _ _)
        · rw [scanFiles, if_neg hmem, if_neg hage]
          exact ih disp

/-- Lift of `scanFiles_spec` to one whole detector pass over a session. -/
theorem check_session_spec (env : Env) (rec : Recording) :
    (∀ x ∈ rec.uploaded_files,
        x ∈ (check_session_segments env rec).1.uploaded_files) ∧
    (∀ nm ∈ taskNames (check_session_segments env rec).2,
        nm ∈ (check_session_segments env rec).1.uploaded_files ∧
          nm ∉ rec.uploaded_files) ∧
    (taskNames (check_session_segments env rec).2).Nodup := by
  unfold check_session_segments
  split
  · refine ⟨fun x hx => hx, ?_, ?_⟩
    · intro nm hnm
      simp [taskNames] at hnm
    · simp [taskNames]
  · dsimp only
    split
    · refine ⟨fun x hx => hx, ?_, ?_⟩
      · intro nm hnm
        simp [taskNames] at hnm
      · simp [taskNames]
    · exact scanFiles_spec _ _ _ _ _ _

/-- Claim C4: across any sequence of detector scan ticks over a session,
(i) the dispatched set only grows — no name is ever removed; (ii) every
enqueued task's filename is in the dispatched set from the moment the task
is emitted (it remains in the final set) and was not dispatched before; and
(iii) the filenames enqueued across all ticks are pairwise distinct — each
segment file is enqueued at most once. -/
theorem C4_dispatched_discipline (envs : List Env) (rec : Recording) :
    (∀ x ∈ rec.uploaded_files, x ∈ (detectorTicks envs rec).1.uploaded_files) ∧
    (∀ nm ∈ taskNames (detectorTicks envs rec).2,
        nm ∈ (detectorTicks envs rec).1.uploaded_files ∧
          nm ∉ rec.uploaded_files) ∧
    (taskNames (detectorTicks envs rec).2).Nodup := by
  induction envs generalizing rec with
  | nil =>
      refine ⟨fun x hx => hx, ?_, ?_⟩
      · intro nm hnm
        simp [detectorTicks, taskNames] at hnm
      · simp [detectorTicks, taskNames]
  | cons e es ih =>
      obtain ⟨c1, c2, c3⟩ := check_session_spec e rec
      obtain ⟨i1, i2, i3⟩ := ih (check_session_segments e rec).1
      refine ⟨?_, ?_, ?_⟩
      · intro x hx
        exact i1 x (c1 x hx)
      · intro nm hnm
        rw [show taskNames (detectorTicks (e :: es) rec).2 =
              taskNames (check_session_segments e rec).2 ++
              taskNames (detectorTicks es (check_session_segments e rec).1).2 from by
            simp [detectorTicks, taskNames], List.mem_append] at hnm
        rcases hnm with hnm | hnm
        · obtain ⟨h1, h2⟩ := c2 nm hnm
          exact ⟨i1 nm h1, h2⟩
        · obtain ⟨h1, h2⟩ := i2 nm hnm
          exact ⟨h1, fun hx => h2 (c1 nm hx)⟩
      · rw [show taskNames (detectorTicks (e :: es) rec).2 =
              taskNames (check_session_segments e rec).2 ++
              taskNames (detectorTicks es (check_session_segments e rec).1).2 from by
            simp [detectorTicks, taskNames], List.nodup_append]
        exact ⟨c3, i3, fun nm h1 h2 => (i2 nm h2).2 ((c2 nm h1).1)⟩

/-- Witness to `C4_dispatched_discipline`: two identical scan ticks over the
two-file directory — the older file is dispatched once, stays dispatched,
and the enqueued names are duplicate-free. -/
theorem C4_dispatched_discipline_witness :
    ("segment_000.mp4" ∈
        (detectorTicks [envTwoFiles, envTwoFiles] recCam1).1.uploaded_files ∧
      "segment_000.mp4" ∉ recCam1.uploaded_files) ∧
    (taskNames (detectorTicks [envTwoFiles, envTwoFiles] recCam1).2).Nodup :=
  ⟨(C4_dispatched_discipline [envTwoFiles, envTwoFiles] recCam1).2.1
      "segment_000.mp4" (by decide),
   (C4_dispatched_discipline [envTwoFiles, envTwoFiles] recCam1).2.2⟩
